import Mathlib

/-!
Verification of the gnisdata acquisition/caching and enrichment pipelines.

The Python source (`src/gnisdata.py`) is shallowly embedded below:
  * bytes/file contents are modelled as `String`;
  * a ZIP archive is `Option (List (String × String))` — `none` models data
    that is not a valid ZIP container, `some members` maps member names to
    member contents;
  * a GeoDataFrame is abstracted to its feature count (`Nat`);
  * the external collaborators (HTTP transport, `gpd.read_file`, the
    elevation service response) are oracles supplied as function arguments,
    so that "no network call is made" is expressed as independence of the
    result from the oracle;
  * Python floats coming from JSON are modelled as exact rationals `ℚ`,
    and Python's `round` (round-half-to-even) is modelled by `pythonRound`;
  * exceptions become `Except` values; Python's two exception classes
    (`ValueError` for validation, `GNISDataError` for domain failures) become
    the two constructors of `ElevErr` where the distinction matters.
-/

namespace Gnis

/-- Python's `str.upper()` on the ASCII location codes and filenames used
here, defined structurally on the character list so that concrete instances
reduce inside the kernel. -/
def upper (s : String) : String := String.mk (s.data.map Char.toUpper)

/-- Python's `str.endswith` (used by the `"*.gpkg"` glob), defined
structurally so that concrete instances reduce inside the kernel. -/
def strEndsWith (s suffix : String) : Bool := suffix.data.isSuffixOf s.data

/-- Base URL constant from the source. -/
def BASE_URL : String :=
  "https://prd-tnm.s3.amazonaws.com/StagedProducts/GeographicNames/FullModel/"

/-- The set of valid two-letter state codes (`VALID_STATES` in the source;
the source literal lists `DC` twice, which is harmless for membership). -/
def VALID_STATES : List String :=
  ["AL", "AK", "AZ", "AR", "CA", "CO", "CT", "DE", "FL", "GA",
   "HI", "ID", "IL", "IN", "IA", "KS", "KY", "LA", "ME", "MD",
   "MA", "MI", "MN", "MS", "MO", "MT", "NE", "NV", "NH", "NJ",
   "NM", "NY", "NC", "ND", "OH", "OK", "OR", "PA", "RI", "SC",
   "SD", "TN", "TX", "UT", "VT", "VA", "WA", "WV", "WI", "WY",
   "DC", "AS", "GU", "MP", "PR", "VI", "UM"]

/-- The national aliases (`VALID_ALL_LOCATIONS` in the source). -/
def VALID_ALL_LOCATIONS : List String := ["NATIONAL", "ALL", "US", "USA"]

/-- Embedding of `_construct_url`: uppercase the location, then build the
archive URL, or fail with the source's error message. -/
def construct_url (location : String) : Except String String :=
  let location := upper location
  if location ∈ VALID_ALL_LOCATIONS then
    Except.ok (BASE_URL ++ "Gazetteer_National_GPKG.zip")
  else if location ∈ VALID_STATES then
    Except.ok (BASE_URL ++ "Gazetteer_" ++ location ++ "_GPKG.zip")
  else
    Except.error ("Invalid location: " ++ location ++
      ". Must be 'National' or a valid state code.")

/-- The member name `extract_gpkg_from_zip` derives from a location: the
source uppercases and compares against the single string `'NATIONAL'`. -/
def expected_gpkg_member (location : String) : String :=
  let location := upper location
  if location = "NATIONAL" then "Gazetteer_National_GPKG.gpkg"
  else "Gazetteer_" ++ location ++ "_GPKG.gpkg"

/-- A ZIP archive: `none` is malformed data (`zipfile.BadZipFile`),
`some members` maps member names to contents. -/
abbrev ZipData : Type := Option (List (String × String))

/-- Embedding of `extract_gpkg_from_zip`: look up the expected member,
mirroring the source's namelist check and error messages. -/
def extract_gpkg_from_zip (zip_data : ZipData) (location : String) :
    Except String String :=
  let expected_filename := expected_gpkg_member location
  match zip_data with
  | none => Except.error "Invalid ZIP file"
  | some members =>
    match members.lookup expected_filename with
    | some content => Except.ok content
    | none =>
      Except.error ("Expected file '" ++ expected_filename ++
        "' not found in archive. Available files: " ++
        String.intercalate ", " (members.map Prod.fst))

/-- The cache/GPKG filename `load_gnis_gdf` derives from the uppercased
location: the distinguished national name for every alias in
`VALID_ALL_LOCATIONS`, else the per-state name. -/
def gpkg_filename_for (location_upper : String) : String :=
  if location_upper ∈ VALID_ALL_LOCATIONS then "Gazetteer_National_GPKG.gpkg"
  else "Gazetteer_" ++ location_upper ++ "_GPKG.gpkg"

/-- Filesystem state visible to `load_gnis_gdf`: the cache files (path ↦
contents) and the set of live temporary-file names. -/
structure FS where
  files : List (String × String)
  temps : List String
deriving DecidableEq

/-- Remove a file (Python `Path.unlink`). -/
def FS.unlink (fs : FS) (path : String) : FS :=
  { fs with files := fs.files.filter (fun p => p.1 ≠ path) }

/-- Write a file, overwriting any existing entry (`Path.write_bytes`). -/
def FS.write (fs : FS) (path content : String) : FS :=
  { fs with files := (path, content) :: fs.files.filter (fun p => p.1 ≠ path) }

/-- External collaborators of the acquisition pipeline: the HTTP transport
(url ↦ downloaded bytes or a failure cause), the geospatial reader
`gpd.read_file` (file contents and optional layer ↦ feature count or a parse
failure cause), and the name `tempfile` hands out for the ephemeral file. -/
structure Env where
  transport : String → Except String ZipData
  readFile : String → Option String → Except String Nat
  tmpName : String

/-- Embedding of `download_gnis_data`: construct the URL (outside the
`try`, so an invalid location raises before any network call), then perform
the GET, wrapping any transport failure. The `Bool` records whether the
transport was invoked at all. -/
def download_gnis_data (env : Env) (location : String) :
    Except String ZipData × Bool :=
  match construct_url location with
  | Except.error e => (Except.error e, false)
  | Except.ok url =>
    match env.transport url with
    | Except.error e =>
      (Except.error ("Failed to download data for " ++ location ++ ": " ++ e),
       true)
    | Except.ok zip => (Except.ok zip, true)

/-- Outcome of one `load_gnis_gdf` call: the returned table or raised error,
the final filesystem, and how many transport GETs and `gpd.read_file`
invocations happened. -/
structure LoadOut where
  result : Except String Nat
  fs : FS
  downloads : Nat
  parses : Nat

/-- The download → extract → persist → load tail of `load_gnis_gdf` (the code
from line "# Download and extract" on), entered either on a cache miss or
after a corrupted cache entry was unlinked. `parses0` counts the
`gpd.read_file` attempts already made on the cached entry. The `finally`
block of the source is reflected by removing the temporary file in both the
success and the failure branch of the non-cached path. -/
def load_gnis_gdf_fresh (env : Env) (location : String) (layer : Option String)
    (use_cache : Bool) (gpkg_file : String) (fs : FS) (parses0 : Nat) :
    LoadOut :=
  match download_gnis_data env location with
  | (Except.error e, called) =>
    ⟨Except.error e, fs, bif called then 1 else 0, parses0⟩
  | (Except.ok zip_data, called) =>
    let dl := bif called then 1 else 0
    match extract_gpkg_from_zip zip_data location with
    | Except.error e => ⟨Except.error e, fs, dl, parses0⟩
    | Except.ok gpkg_data =>
      if use_cache then
        let fs1 := fs.write gpkg_file gpkg_data
        match env.readFile gpkg_data layer with
        | Except.ok gdf => ⟨Except.ok gdf, fs1, dl, parses0 + 1⟩
        | Except.error e =>
          ⟨Except.error ("Failed to load GPKG into GeoDataFrame: " ++ e),
           fs1, dl, parses0 + 1⟩
      else
        let fs1 := { fs with temps := env.tmpName :: fs.temps }
        match env.readFile gpkg_data layer with
        | Except.ok gdf =>
          ⟨Except.ok gdf, { fs1 with temps := fs1.temps.erase env.tmpName },
           dl, parses0 + 1⟩
        | Except.error e =>
          ⟨Except.error ("Failed to load GPKG into GeoDataFrame: " ++ e),
           { fs1 with temps := fs1.temps.erase env.tmpName },
           dl, parses0 + 1⟩

/-- Embedding of `load_gnis_gdf`: with caching, try the cached file first;
on a parse failure unlink the corrupted entry and fall through (once) to the
download path. Without caching, go straight to the download path. -/
def load_gnis_gdf (env : Env) (location : String) (layer : Option String)
    (use_cache : Bool) (cache_dir : Option String) (fs : FS) : LoadOut :=
  let location_upper := upper location
  let gpkg_filename := gpkg_filename_for location_upper
  let cache_path :=
    match cache_dir with
    | none => "~/.cache/gnisdata"
    | some d => d
  let gpkg_file := cache_path ++ "/" ++ gpkg_filename
  if use_cache then
    match fs.files.lookup gpkg_file with
    | some cached =>
      match env.readFile cached layer with
      | Except.ok gdf => ⟨Except.ok gdf, fs, 0, 1⟩
      | Except.error _ =>
        load_gnis_gdf_fresh env location layer true gpkg_file
          (fs.unlink gpkg_file) 1
    | none => load_gnis_gdf_fresh env location layer true gpkg_file fs 0
  else
    load_gnis_gdf_fresh env location layer false gpkg_file fs 0

/-- One file under the cache root as the filesystem reports it: name, size
in bytes (`st_size`), and modification time (`st_mtime`). -/
structure CacheFile where
  name : String
  size : Nat
  mtime : ℚ
deriving DecidableEq

/-- A value stored in one of the per-file info dictionaries. -/
inductive FieldVal where
  | str (s : String)
  | num (q : ℚ)
deriving DecidableEq

/-- The dictionary returned by `get_cache_info`. Each per-file entry is an
association list of key/value pairs, mirroring the Python dict literal. -/
structure CacheInfo where
  cache_dir : String
  cached_files : List (List (String × FieldVal))
  total_size_mb : ℚ
deriving DecidableEq

/-- The per-file dict built inside the loop of `get_cache_info` (keys in
source order: filename, size_mb, modified, path). -/
def cache_file_entry (cache_dir : String) (f : CacheFile) :
    List (String × FieldVal) :=
  [("filename", FieldVal.str f.name),
   ("size_mb", FieldVal.num ((f.size : ℚ) / (1024 * 1024))),
   ("modified", FieldVal.num f.mtime),
   ("path", FieldVal.str (cache_dir ++ "/" ++ f.name))]

/-- Ordering used for `sorted(cache_path.glob("*.gpkg"))`: the glob yields
paths sharing the cache-root prefix, so Python's path sort coincides with
sorting by filename. -/
def cacheFileLE (a b : CacheFile) : Prop := a.name ≤ b.name

instance : DecidableRel cacheFileLE := fun a b =>
  inferInstanceAs (Decidable (a.name ≤ b.name))

instance : IsTotal CacheFile cacheFileLE := ⟨fun a b => le_total a.name b.name⟩

instance : IsTrans CacheFile cacheFileLE :=
  ⟨fun _ _ _ hab hbc => le_trans hab hbc⟩

/-- Embedding of `get_cache_info`. The directory listing is `none` when the
cache root does not exist, else the list of files under it (in arbitrary
order); the glob keeps the `.gpkg` files. -/
def get_cache_info (cache_dir : String) (listing : Option (List CacheFile)) :
    CacheInfo :=
  match listing with
  | none => ⟨cache_dir, [], 0⟩
  | some files =>
    let globbed := files.filter (fun f => strEndsWith f.name ".gpkg")
    let sortedFiles := List.insertionSort cacheFileLE globbed
    let total_size : Nat := (sortedFiles.map (fun f => f.size)).sum
    ⟨cache_dir, sortedFiles.map (cache_file_entry cache_dir),
     (total_size : ℚ) / (1024 * 1024)⟩

/-- Python's `round`: round half to even (banker's rounding), on exact
rationals. -/
def pythonRound (q : ℚ) : ℤ :=
  let f := ⌊q⌋
  let r := q - f
  if r < 1/2 then f
  else if 1/2 < r then f + 1
  else if f % 2 = 0 then f else f + 1

/-- The elevation service interaction as observed by `get_elevation`: the
request can fail at transport level, succeed with a JSON object lacking the
`value` field, carry a null `value`, or carry a numeric `value`. -/
inductive ElevResp where
  | requestFailure (cause : String)
  | noValueField
  | valueNull
  | value (v : ℚ)
deriving DecidableEq

/-- Error classes of `get_elevation`: `valueError` models Python's
`ValueError` (input validation), `gnisDataError` models `GNISDataError`
(domain/service failure). -/
inductive ElevErr where
  | valueError (msg : String)
  | gnisDataError (msg : String)
deriving DecidableEq

/-- Embedding of `get_elevation`: validate latitude, longitude and units in
source order before any I/O, then interpret the service response, treating a
null `value` or the `-1000000` sentinel as "no elevation available" and
rounding a genuine value to an integer. The `Bool` records whether a query
was issued to the service. -/
def get_elevation (latitude longitude : ℚ) (units : String)
    (resp : ElevResp) : Except ElevErr ℤ × Bool :=
  if ¬(-90 ≤ latitude ∧ latitude ≤ 90) then
    (Except.error (ElevErr.valueError
      ("Latitude must be between -90 and 90, got " ++ toString latitude)),
     false)
  else if ¬(-180 ≤ longitude ∧ longitude ≤ 180) then
    (Except.error (ElevErr.valueError
      ("Longitude must be between -180 and 180, got " ++ toString longitude)),
     false)
  else if ¬(units = "Feet" ∨ units = "Meters") then
    (Except.error (ElevErr.valueError
      ("Units must be 'Feet' or 'Meters', got " ++ units)), false)
  else
    match resp with
    | ElevResp.requestFailure cause =>
      (Except.error (ElevErr.gnisDataError
        ("Failed to query elevation service: " ++ cause)), true)
    | ElevResp.noValueField =>
      (Except.error (ElevErr.gnisDataError
        ("No elevation data returned for coordinates (" ++
         toString latitude ++ ", " ++ toString longitude ++ ").")), true)
    | ElevResp.valueNull =>
      (Except.error (ElevErr.gnisDataError
        ("No elevation available for coordinates (" ++ toString latitude ++
         ", " ++ toString longitude ++
         "). Location may be outside coverage area or over water.")), true)
    | ElevResp.value v =>
      if v = -1000000 then
        (Except.error (ElevErr.gnisDataError
          ("No elevation available for coordinates (" ++ toString latitude ++
           ", " ++ toString longitude ++
           "). Location may be outside coverage area or over water.")), true)
      else (Except.ok (pythonRound v), true)

/-- State threaded through the elevation annotation loop: per-row elevation
results in row order, the number of elevation-client calls made, and the
sequence of rate-limit pauses (each pause records its length). -/
structure ElevLoopState where
  elevations : List (Option ℤ)
  clientCalls : Nat
  pauses : List ℚ
deriving DecidableEq

/-- Whether row `i` is within the elevation request budget
(`max_elevation_requests`; `none` = unbounded). -/
def elevUnderBudget (maxReq : Option Nat) (i : Nat) : Bool :=
  match maxReq with
  | none => true
  | some m => decide (i < m)

/-- Number of elevation requests attempted for `n` filtered rows under the
budget: `min n max` (all `n` when unbounded). -/
def elevAttempted (maxReq : Option Nat) (n : Nat) : Nat :=
  match maxReq with
  | none => n
  | some m => min n m

/-- Modelled from the spec: `create_enriched_export` is imported by the test
suite from the package but its definition is absent from `src/gnisdata.py`;
its elevation annotation step (spec section 4.3 step 5) is modelled here.
Rows `0..n-1` are processed in order; row `i`'s lookup outcome is `client i`
(`none` = any lookup failure, downgraded to the "no value" marker). A row
under the request budget costs one elevation-client call, with the fixed
`0.1` rate-limit pause inserted between successive calls (so after every
request except the last); a row beyond the budget gets the "no value" marker
with no call. -/
def create_enriched_export_elevation (client : Nat → Option ℤ)
    (maxReq : Option Nat) : Nat → ElevLoopState
  | 0 => ⟨[], 0, []⟩
  | n + 1 =>
    let st := create_enriched_export_elevation client maxReq n
    if elevUnderBudget maxReq n then
      let st1 :=
        if st.clientCalls = 0 then st
        else { st with pauses := st.pauses ++ [1/10] }
      { st1 with
        elevations := st1.elevations ++ [client n],
        clientCalls := st1.clientCalls + 1 }
    else { st with elevations := st.elevations ++ [none] }

end Gnis

deriving instance DecidableEq for Except

open Gnis

/-- C1: evaluation of the code at the failing input. For the national alias
`"US"`, the download and cache steps derive the distinguished national names
(`Gazetteer_National_GPKG.zip` / `.gpkg`), but `extract_gpkg_from_zip`
derives `Gazetteer_US_GPKG.gpkg` and therefore fails on the genuine national
archive, whose single member is `Gazetteer_National_GPKG.gpkg`; only the
literal alias `"NATIONAL"` extracts the distinguished member. So the claim
that every national alias selects the distinguished member is what the
surrounding code assumes, and `extract_gpkg_from_zip` violates it. -/
theorem extract_alias_divergence :
    expected_gpkg_member "US" = "Gazetteer_US_GPKG.gpkg" ∧
    gpkg_filename_for (upper "US") = "Gazetteer_National_GPKG.gpkg" ∧
    construct_url "US" =
      Except.ok (BASE_URL ++ "Gazetteer_National_GPKG.zip") ∧
    extract_gpkg_from_zip
        (some [("Gazetteer_National_GPKG.gpkg", "gpkg-bytes")]) "US" =
      Except.error ("Expected file 'Gazetteer_US_GPKG.gpkg' not found in " ++
        "archive. Available files: Gazetteer_National_GPKG.gpkg") ∧
    extract_gpkg_from_zip
        (some [("Gazetteer_National_GPKG.gpkg", "gpkg-bytes")]) "National" =
      Except.ok "gpkg-bytes" := by
  refine ⟨by decide, by decide, by decide, by decide, by decide⟩

/-- C5: with valid inputs, a null service value and the `-1000000` sentinel
both raise the "no elevation available" domain error (`GNISDataError`, not a
numeric zero), while a legitimate service value of `0` is returned as the
integer `0`. -/
theorem get_elevation_no_data_policy
    (lat lon : ℚ) (units : String)
    (h1 : -90 ≤ lat) (h2 : lat ≤ 90) (h3 : -180 ≤ lon) (h4 : lon ≤ 180)
    (h5 : units = "Feet" ∨ units = "Meters") :
    get_elevation lat lon units ElevResp.valueNull =
      (Except.error (ElevErr.gnisDataError
        ("No elevation available for coordinates (" ++ toString lat ++
         ", " ++ toString lon ++
         "). Location may be outside coverage area or over water.")), true)
    ∧ get_elevation lat lon units (ElevResp.value (-1000000)) =
      (Except.error (ElevErr.gnisDataError
        ("No elevation available for coordinates (" ++ toString lat ++
         ", " ++ toString lon ++
         "). Location may be outside coverage area or over water.")), true)
    ∧ get_elevation lat lon units (ElevResp.value 0) = (Except.ok 0, true) := by
  have hu : (units = "Feet" ∨ units = "Meters") := h5
  refine ⟨?_, ?_, ?_⟩ <;>
    simp [get_elevation, h1, h2, h3, h4, hu, pythonRound]

/-- C5 witness: the policy evaluated at Mount Whitney's coordinates. -/
theorem get_elevation_no_data_policy_witness :
    get_elevation 36.578581 (-118.291994) "Feet" ElevResp.valueNull =
      (Except.error (ElevErr.gnisDataError
        ("No elevation available for coordinates (" ++
         toString (36.578581 : ℚ) ++ ", " ++ toString (-118.291994 : ℚ) ++
         "). Location may be outside coverage area or over water.")), true)
    ∧ get_elevation 36.578581 (-118.291994) "Feet" (ElevResp.value 0) =
      (Except.ok 0, true) :=
  ⟨(get_elevation_no_data_policy 36.578581 (-118.291994) "Feet"
      (by norm_num) (by norm_num) (by norm_num) (by norm_num)
      (Or.inl rfl)).1,
   (get_elevation_no_data_policy 36.578581 (-118.291994) "Feet"
      (by norm_num) (by norm_num) (by norm_num) (by norm_num)
      (Or.inl rfl)).2.2⟩

/-- C6: out-of-range latitude, out-of-range longitude and unrecognized units
each make `get_elevation` fail with a `ValueError` (the validation category,
distinct from `GNISDataError`) whose message cites the offending value,
without issuing a query to the elevation service (the result is the same for
every service response, with the queried flag `false`); in-range inputs,
including the boundary values, reach the service (queried flag `true`). -/
theorem get_elevation_validation (lat lon : ℚ) (units : String)
    (resp : ElevResp) :
    ((lat < -90 ∨ 90 < lat) →
      get_elevation lat lon units resp =
        (Except.error (ElevErr.valueError
          ("Latitude must be between -90 and 90, got " ++ toString lat)),
         false))
    ∧ (-90 ≤ lat → lat ≤ 90 → (lon < -180 ∨ 180 < lon) →
      get_elevation lat lon units resp =
        (Except.error (ElevErr.valueError
          ("Longitude must be between -180 and 180, got " ++ toString lon)),
         false))
    ∧ (-90 ≤ lat → lat ≤ 90 → -180 ≤ lon → lon ≤ 180 →
       units ≠ "Feet" → units ≠ "Meters" →
      get_elevation lat lon units resp =
        (Except.error (ElevErr.valueError
          ("Units must be 'Feet' or 'Meters', got " ++ units)), false))
    ∧ (-90 ≤ lat → lat ≤ 90 → -180 ≤ lon → lon ≤ 180 →
       (units = "Feet" ∨ units = "Meters") →
      (get_elevation lat lon units resp).2 = true) := by
  refine ⟨?_, ?_, ?_, ?_⟩
  · intro h
    have hc : ¬(-90 ≤ lat ∧ lat ≤ 90) := by
      rcases h with h | h
      · exact fun hc => absurd hc.1 (not_le.mpr h)
      · exact fun hc => absurd hc.2 (not_le.mpr h)
    simp [get_elevation, hc]
  · intro h1 h2 h
    have hc : ¬(-180 ≤ lon ∧ lon ≤ 180) := by
      rcases h with h | h
      · exact fun hc => absurd hc.1 (not_le.mpr h)
      · exact fun hc => absurd hc.2 (not_le.mpr h)
    simp [get_elevation, h1, h2, hc]
  · intro h1 h2 h3 h4 hf hm
    simp [get_elevation, h1, h2, h3, h4, hf, hm]
  · intro h1 h2 h3 h4 hu
    cases resp <;> simp [get_elevation, h1, h2, h3, h4, hu]
    split <;> simp

/-- C6 witness: the validation cases evaluated at concrete inputs — latitude
`100`, longitude `200`, units `"feet"`, and the accepted boundary point
`(90, 180)`. -/
theorem get_elevation_validation_witness :
    get_elevation 100 0 "Feet" (ElevResp.value 5) =
      (Except.error (ElevErr.valueError
        ("Latitude must be between -90 and 90, got " ++ toString (100 : ℚ))),
       false)
    ∧ get_elevation 0 200 "Feet" (ElevResp.value 5) =
      (Except.error (ElevErr.valueError
        ("Longitude must be between -180 and 180, got " ++
         toString (200 : ℚ))), false)
    ∧ get_elevation 0 0 "feet" (ElevResp.value 5) =
      (Except.error (ElevErr.valueError
        ("Units must be 'Feet' or 'Meters', got " ++ "feet")), false)
    ∧ (get_elevation 90 180 "Feet" (ElevResp.value 5)).2 = true :=
  ⟨(get_elevation_validation 100 0 "Feet" (ElevResp.value 5)).1
      (Or.inr (by norm_num)),
   (get_elevation_validation 0 200 "Feet" (ElevResp.value 5)).2.1
      (by norm_num) (by norm_num) (Or.inr (by norm_num)),
   (get_elevation_validation 0 0 "feet" (ElevResp.value 5)).2.2.1
      (by norm_num) (by norm_num) (by norm_num) (by norm_num)
      (by decide) (by decide),
   (get_elevation_validation 90 180 "Feet" (ElevResp.value 5)).2.2.2
      (by norm_num) (by norm_num) (by norm_num) (by norm_num)
      (Or.inl rfl)⟩

/-- C8: `get_elevation` rounds the service's value to the nearest integer:
`14505.3 ↦ 14505`, `1234.6 ↦ 1235`, `1234.4 ↦ 1234` (evaluated at the
spec's Mount Whitney coordinates). -/
theorem get_elevation_rounds_to_nearest :
    get_elevation 36.578581 (-118.291994) "Feet" (ElevResp.value 14505.3) =
      (Except.ok 14505, true)
    ∧ get_elevation 36.578581 (-118.291994) "Feet" (ElevResp.value 1234.6) =
      (Except.ok 1235, true)
    ∧ get_elevation 36.578581 (-118.291994) "Feet" (ElevResp.value 1234.4) =
      (Except.ok 1234, true) := by
  refine ⟨?_, ?_, ?_⟩ <;> simp [get_elevation, pythonRound] <;>
    norm_num [Int.fract]

/-- C7: for a location that is neither a national alias nor a valid state
code after uppercasing, `download_gnis_data` raises the descriptive
"Invalid location" error naming the (uppercased) location, and the transport
is never invoked — the result is this fixed error for every transport, with
the network flag `false`. -/
theorem invalid_location_no_network (env : Env) (location : String)
    (h1 : upper location ∉ VALID_ALL_LOCATIONS)
    (h2 : upper location ∉ VALID_STATES) :
    download_gnis_data env location =
      (Except.error ("Invalid location: " ++ upper location ++
        ". Must be 'National' or a valid state code."), false) := by
  simp [download_gnis_data, construct_url, h1, h2]

/-- C7 witness: the invalid location `"ZZ"` is rejected without a network
call, for a transport that would otherwise succeed. -/
theorem invalid_location_no_network_witness :
    download_gnis_data
      ⟨fun _ => Except.ok (some []), fun _ _ => Except.ok 0, "/tmp/t"⟩ "ZZ" =
      (Except.error ("Invalid location: " ++ upper "ZZ" ++
        ". Must be 'National' or a valid state code."), false) :=
  invalid_location_no_network _ "ZZ" (by decide) (by decide)

/-- C2: with caching enabled, a cached entry that fails to parse is
unlinked and exactly one re-download is performed; when the freshly
downloaded bytes also fail to parse, the call ends in the wrapped
"Failed to load GPKG into GeoDataFrame" domain error after exactly two
parse attempts and one download — the retry is bounded to one. -/
theorem cache_corruption_single_retry (env : Env) (location : String)
    (layer : Option String) (cache_dir : Option String) (fs : FS)
    (gpkg_file cached e1 : String) (zip_data : ZipData)
    (fresh e2 : String)
    (hpath : gpkg_file =
      (match cache_dir with
       | none => "~/.cache/gnisdata"
       | some d => d) ++ "/" ++ gpkg_filename_for (upper location))
    (hcached : fs.files.lookup gpkg_file = some cached)
    (hparse1 : env.readFile cached layer = Except.error e1)
    (hdl : download_gnis_data env location = (Except.ok zip_data, true))
    (hext : extract_gpkg_from_zip zip_data location = Except.ok fresh)
    (hparse2 : env.readFile fresh layer = Except.error e2) :
    load_gnis_gdf env location layer true cache_dir fs =
      ⟨Except.error ("Failed to load GPKG into GeoDataFrame: " ++ e2),
       (fs.unlink gpkg_file).write gpkg_file fresh, 1, 2⟩ := by
  subst hpath
  simp [load_gnis_gdf, load_gnis_gdf_fresh, hcached, hparse1, hdl, hext,
    hparse2]

/-- C2 witness: a concrete corrupted cache entry for `"CA"`, a transport
that delivers an archive whose fresh member also fails to parse. -/
theorem cache_corruption_single_retry_witness :
    load_gnis_gdf
      ⟨fun _ => Except.ok (some [("Gazetteer_CA_GPKG.gpkg", "freshbytes")]),
       fun _ _ => Except.error "boom", "/tmp/t"⟩
      "CA" none true (some "/c")
      ⟨[("/c/Gazetteer_CA_GPKG.gpkg", "bad")], []⟩ =
      ⟨Except.error ("Failed to load GPKG into GeoDataFrame: " ++ "boom"),
       (FS.unlink ⟨[("/c/Gazetteer_CA_GPKG.gpkg", "bad")], []⟩
           "/c/Gazetteer_CA_GPKG.gpkg").write
         "/c/Gazetteer_CA_GPKG.gpkg" "freshbytes", 1, 2⟩ :=
  cache_corruption_single_retry _ "CA" none (some "/c") _
    "/c/Gazetteer_CA_GPKG.gpkg" "bad" "boom"
    (some [("Gazetteer_CA_GPKG.gpkg", "freshbytes")]) "freshbytes" "boom"
    (by decide) (by decide) rfl (by decide) (by decide) rfl

/-- C9: without caching, the ephemeral file is released on every exit path
of `load_gnis_gdf` — whatever the transport, extraction and parse outcomes,
the set of live temporary files after the call equals the set before it. -/
theorem no_cache_temp_released (env : Env) (location : String)
    (layer : Option String) (cache_dir : Option String) (fs : FS) :
    (load_gnis_gdf env location layer false cache_dir fs).fs.temps =
      fs.temps := by
  unfold load_gnis_gdf load_gnis_gdf_fresh
  cases hdl : download_gnis_data env location with
  | mk res called =>
    cases res with
    | error e => simp
    | ok zip_data =>
      cases hext : extract_gpkg_from_zip zip_data location with
      | error e => simp [hext]
      | ok dat =>
        cases hrf : env.readFile dat layer with
        | error e => simp [hext, hrf]
        | ok gdf => simp [hext, hrf]

/-- C10: with caching enabled and no pre-existing cache entry, when the
freshly downloaded and extracted bytes are written to the cache and then
fail to parse, the call raises the wrapped domain error while the cache
file written during the call remains on disk with those bytes. -/
theorem first_pass_failure_keeps_cache (env : Env) (location : String)
    (layer : Option String) (cache_dir : Option String) (fs : FS)
    (gpkg_file : String) (zip_data : ZipData) (fresh e : String)
    (hpath : gpkg_file =
      (match cache_dir with
       | none => "~/.cache/gnisdata"
       | some d => d) ++ "/" ++ gpkg_filename_for (upper location))
    (hmiss : fs.files.lookup gpkg_file = none)
    (hdl : download_gnis_data env location = (Except.ok zip_data, true))
    (hext : extract_gpkg_from_zip zip_data location = Except.ok fresh)
    (hparse : env.readFile fresh layer = Except.error e) :
    load_gnis_gdf env location layer true cache_dir fs =
      ⟨Except.error ("Failed to load GPKG into GeoDataFrame: " ++ e),
       fs.write gpkg_file fresh, 1, 1⟩
    ∧ ((fs.write gpkg_file fresh).files.lookup gpkg_file = some fresh) := by
  subst hpath
  constructor
  · simp [load_gnis_gdf, load_gnis_gdf_fresh, hmiss, hdl, hext, hparse]
  · simp [FS.write, List.lookup]

/-- C10 witness: a concrete first-pass parse failure for `"CA"` with an
empty cache; the error is raised and the fresh bytes stay cached. -/
theorem first_pass_failure_keeps_cache_witness :
    load_gnis_gdf
      ⟨fun _ => Except.ok (some [("Gazetteer_CA_GPKG.gpkg", "freshbytes")]),
       fun _ _ => Except.error "boom", "/tmp/t"⟩
      "CA" none true (some "/c") ⟨[], []⟩ =
      ⟨Except.error ("Failed to load GPKG into GeoDataFrame: " ++ "boom"),
       FS.write ⟨[], []⟩ "/c/Gazetteer_CA_GPKG.gpkg" "freshbytes", 1, 1⟩
    ∧ ((FS.write ⟨[], []⟩ "/c/Gazetteer_CA_GPKG.gpkg"
          "freshbytes").files.lookup "/c/Gazetteer_CA_GPKG.gpkg" =
        some "freshbytes") :=
  first_pass_failure_keeps_cache _ "CA" none (some "/c") ⟨[], []⟩
    "/c/Gazetteer_CA_GPKG.gpkg"
    (some [("Gazetteer_CA_GPKG.gpkg", "freshbytes")]) "freshbytes" "boom"
    (by decide) (by decide) (by decide) (by decide) rfl

/-- C3: in the elevation annotation step, with `n` filtered rows the
elevation client is invoked exactly `min n max_elevation_requests` times
(`n` times when the budget is unbounded), row `i`'s field is the client's
`i`-th outcome for rows under the budget and the "no value" marker for rows
beyond it (in row order, with no external call for those rows), and the
fixed `0.1` rate-limit pause occurs exactly `attempted - 1` times — not at
all when `0` or `1` requests are attempted and never after the final
request. -/
theorem elevation_budget_and_rate_limit (client : Nat → Option ℤ)
    (maxReq : Option Nat) (n : Nat) :
    (create_enriched_export_elevation client maxReq n).elevations =
      (List.range n).map
        (fun i => if elevUnderBudget maxReq i then client i else none)
    ∧ (create_enriched_export_elevation client maxReq n).clientCalls =
      elevAttempted maxReq n
    ∧ (create_enriched_export_elevation client maxReq n).pauses =
      List.replicate (elevAttempted maxReq n - 1) ((1 : ℚ)/10) := by
  induction n with
  | zero =>
    refine ⟨rfl, ?_, ?_⟩ <;> cases maxReq <;>
      simp [create_enriched_export_elevation, elevAttempted]
  | succ n ih =>
    obtain ⟨ihE, ihC, ihP⟩ := ih
    have hstep : elevAttempted maxReq (n + 1) =
        if elevUnderBudget maxReq n then elevAttempted maxReq n + 1
        else elevAttempted maxReq n := by
      cases maxReq with
      | none => simp [elevAttempted, elevUnderBudget]
      | some m =>
        simp only [elevAttempted, elevUnderBudget]
        by_cases h : n < m <;> simp [h] <;> omega
    by_cases h : elevUnderBudget maxReq n
    · by_cases h0 :
        (create_enriched_export_elevation client maxReq n).clientCalls = 0
      · have hA : elevAttempted maxReq n = 0 := by rw [← ihC]; exact h0
        refine ⟨?_, ?_, ?_⟩
        · rw [List.range_succ, List.map_append]
          simp [create_enriched_export_elevation, h, h0, ihE]
        · simp [create_enriched_export_elevation, h, h0, ihC, hstep, hA]
        · simp [create_enriched_export_elevation, h, h0, ihP, hstep, hA]
      · have hA : elevAttempted maxReq n ≠ 0 := by rw [← ihC]; exact h0
        refine ⟨?_, ?_, ?_⟩
        · rw [List.range_succ, List.map_append]
          simp [create_enriched_export_elevation, h, h0, ihE]
        · simp [create_enriched_export_elevation, h, h0, ihC, hstep, hA]
        · simp [create_enriched_export_elevation, h, h0, ihP, hstep]
          rw [← List.replicate_succ']
          congr 1
          omega
    · refine ⟨?_, ?_, ?_⟩
      · rw [List.range_succ, List.map_append]
        simp [create_enriched_export_elevation, h, ihE]
      · simp [create_enriched_export_elevation, h, ihC, hstep]
      · simp [create_enriched_export_elevation, h, ihP, hstep]

/-- C4 counterexample: the per-file entries returned by `get_cache_info`
carry exactly the keys `filename`, `size_mb`, `modified` and `path` — there
is no `size_bytes` key, so the claim that each entry carries the size in
bytes fails on a concrete one-file cache. -/
theorem cache_info_no_size_bytes_key :
    ((get_cache_info "/c"
        (some [⟨"a.gpkg", 1048576, 7⟩])).cached_files.map
      (fun e => e.map Prod.fst)) =
      [["filename", "size_mb", "modified", "path"]]
    ∧ "size_bytes" ∉
        (((get_cache_info "/c"
            (some [⟨"a.gpkg", 1048576, 7⟩])).cached_files.headD []).map
          Prod.fst) := by
  refine ⟨by decide, by decide⟩

/-- Filename recorded in a per-file cache-info entry. -/
def entryFilename (e : List (String × FieldVal)) : String :=
  match e.lookup "filename" with
  | some (FieldVal.str s) => s
  | _ => ""

/-- C4 (amended): when the cache root is absent `get_cache_info` returns an
empty entry list and zero total size; when it exists, the entries are in
bijection with the `.gpkg` files under the root (one entry per cached file,
carrying that file's filename, size in megabytes, modification time and
path), they are sorted by filename, and the total size in megabytes is the
byte total of those files divided by `1024 * 1024`. -/
theorem cache_info_contents (d : String) (listing : List CacheFile) :
    get_cache_info d none = ⟨d, [], 0⟩
    ∧ (get_cache_info d (some listing)).cache_dir = d
    ∧ ((get_cache_info d (some listing)).cached_files).Perm
        ((listing.filter (fun f => strEndsWith f.name ".gpkg")).map
          (cache_file_entry d))
    ∧ List.Pairwise (fun e1 e2 => entryFilename e1 ≤ entryFilename e2)
        (get_cache_info d (some listing)).cached_files
    ∧ (get_cache_info d (some listing)).total_size_mb =
        (((listing.filter
            (fun f => strEndsWith f.name ".gpkg")).map
              (fun f => f.size)).sum : ℚ) / (1024 * 1024) := by
  refine ⟨rfl, rfl, ?_, ?_, ?_⟩
  · exact (List.perm_insertionSort cacheFileLE _).map (cache_file_entry d)
  · have hs : List.Pairwise cacheFileLE
        (List.insertionSort cacheFileLE
          (listing.filter (fun f => strEndsWith f.name ".gpkg"))) :=
      List.sorted_insertionSort cacheFileLE _
    exact hs.map (cache_file_entry d)
      (fun a b hab => by
        simpa [entryFilename, cache_file_entry, cacheFileLE] using hab)
  · have hperm :
        (List.insertionSort cacheFileLE
          (listing.filter (fun f => strEndsWith f.name ".gpkg"))).Perm
        (listing.filter (fun f => strEndsWith f.name ".gpkg")) :=
      List.perm_insertionSort cacheFileLE _
    simp only [get_cache_info]
    rw [(hperm.map (fun f => f.size)).sum_eq, Nat.cast_list_sum,
      List.map_map]
    rfl



